import Mathlib

/-!
Verification of the kiosk-cli interactive session core: a shallow embedding of
`internal/sessions/uuid.go` (the session identity store and UUID generator) and
`internal/claude/pty.go` (the PTY session executor), with theorems settling the
behavioural claims about them.
-/

namespace KioskCLI

/-! ### Session identity store (`internal/sessions/uuid.go`) -/

/-- The lowercase hex character for a nibble, as produced by Go's `%x`
formatting: `'0' + m` for `m < 10`, `'a' + (m - 10)` otherwise. -/
def hexDigit (n : Nat) : Char :=
  if n % 16 < 10 then Char.ofNat (48 + n % 16) else Char.ofNat (87 + n % 16)

/-- Two hex characters for one byte, high nibble first (`%x` on a byte). -/
def byteHex (b : Nat) : List Char := [hexDigit (b / 16), hexDigit b]

/-- `%x` applied to a byte slice: the concatenation of each byte's two hex chars. -/
def bytesHex (bs : List Nat) : List Char := (bs.map byteHex).flatten

/-- `b[6] = (b[6] & 0x0f) | 0x40` — force the version nibble (uuid.go line 15). -/
def setVersion (b : List Nat) : List Nat := b.set 6 ((b.getD 6 0 &&& 0x0f) ||| 0x40)

/-- `b[8] = (b[8] & 0x3f) | 0x80` — force the variant bits to `10xx` (uuid.go line 17). -/
def setVariant (b : List Nat) : List Nat := b.set 8 ((b.getD 8 0 &&& 0x3f) ||| 0x80)

/-- The character list of `fmt.Sprintf("%x-%x-%x-%x-%x", b[0:4], b[4:6], b[6:8],
b[8:10], b[10:16])` after the version/variant fixups (uuid.go lines 14-19).
The argument is the 16-byte buffer filled by `crypto/rand`. -/
def newUUIDChars (bytes : List Nat) : List Char :=
  let b := setVariant (setVersion bytes)
  bytesHex (b.take 4) ++ '-' ::
    (bytesHex ((b.drop 4).take 2) ++ '-' ::
      (bytesHex ((b.drop 6).take 2) ++ '-' ::
        (bytesHex ((b.drop 8).take 2) ++ '-' :: bytesHex (b.drop 10))))

/-- `newUUID` (uuid.go lines 8-20) on a successful 16-byte random read. -/
def newUUID (bytes : List Nat) : String := String.mk (newUUIDChars bytes)

/-- Errors surfaced by store operations. `writeFail` stands for any failure of
`saveLocked` (mkdir, encode, or write); `entropyFail` for a `crypto/rand` failure
inside `newUUID`. -/
inductive StoreError where
  | writeFail
  | entropyFail
deriving DecidableEq, Repr

/-- `Store` (uuid.go): the in-memory `sessions` map plus, for specifying
persistence, the mapping held by the on-disk file and a count of completed
persistence writes. Maps are total functions to `Option`, mirroring Go map
lookup semantics. -/
structure Store where
  sessions : String → Option String
  disk : String → Option String
  writes : Nat

/-- Go map assignment / deletion: point update of a mapping. -/
def update (f : String → Option String) (k : String) (v : Option String) :
    String → Option String :=
  fun k' => if k' = k then v else f k'

/-- A store with no entries and an absent (empty) file. -/
def emptyStore : Store := ⟨fun _ => none, fun _ => none, 0⟩

/-- `saveLocked` (uuid.go lines 113-128): persist the whole in-memory mapping to
disk. `saveOk` abstracts whether the mkdir/encode/write sequence succeeds; on
success the file now holds exactly the in-memory mapping, on failure the file is
unchanged and an error is returned. -/
def Store.saveLocked (s : Store) (saveOk : Bool) : Store × Option StoreError :=
  if saveOk then ({ s with disk := s.sessions, writes := s.writes + 1 }, none)
  else (s, some .writeFail)

/-- `Store.Get` (uuid.go lines 61-66): lookup with a found/not-found indicator,
rendered as `Option`. -/
def Store.get (s : Store) (k : String) : Option String := s.sessions k

/-- `Store.Set` (uuid.go lines 92-98): assign the key in memory, then persist. -/
def Store.set (s : Store) (k v : String) (saveOk : Bool) : Store × Option StoreError :=
  Store.saveLocked { s with sessions := update s.sessions k (some v) } saveOk

/-- `Store.Delete` (uuid.go lines 101-111): absent key returns nil without
saving; otherwise remove the key in memory, then persist. -/
def Store.delete (s : Store) (k : String) (saveOk : Bool) : Store × Option StoreError :=
  match s.sessions k with
  | none => (s, none)
  | some _ => Store.saveLocked { s with sessions := update s.sessions k none } saveOk

/-- `Store.GetOrCreate` (uuid.go lines 69-89). `entropy = some id` means
`newUUID` succeeds and yields `id`; `none` means the entropy source fails.
Returns the updated store and the Go result triple `(id, created, err)`.
On save failure the freshly inserted entry is deleted again before returning. -/
def Store.getOrCreate (s : Store) (k : String) (entropy : Option String) (saveOk : Bool) :
    Store × String × Bool × Option StoreError :=
  match s.sessions k with
  | some id => (s, id, false, none)
  | none =>
    match entropy with
    | none => (s, "", false, some .entropyFail)
    | some id =>
      match Store.saveLocked { s with sessions := update s.sessions k (some id) } saveOk with
      | (s2, none) => (s2, id, true, none)
      | (s2, some e) => ({ s2 with sessions := update s2.sessions k none }, "", false, some e)

/-! ### PTY session executor (`internal/claude/pty.go`) -/

/-- Errors as compared by `errors.Is` in the select loop: the `ErrDetached`
sentinel, `cancelreader.ErrCanceled`, and any other error (EOF, write errors,
...) tagged by a code. -/
inductive GoError where
  | errDetached
  | errCanceled
  | other (code : Nat)
deriving DecidableEq, Repr

/-- `DefaultDetachKey = 0x0b` (pty.go line 21). -/
def DefaultDetachKey : Nat := 0x0b

/-- `DefaultInterruptDelay = 50 * time.Millisecond`, in nanoseconds
(pty.go line 22; Go `time.Duration` is an integer nanosecond count). -/
def DefaultInterruptDelay : Int := 50000000

/-- `DefaultInterruptTimeout = 3 * time.Second`, in nanoseconds (pty.go line 23). -/
def DefaultInterruptTimeout : Int := 3000000000

/-- `SessionOptions` (pty.go lines 34-39), without the IO handles. -/
structure SessionOptions where
  detachKey : Nat
  interruptDelay : Int
  interruptTimeout : Int
deriving DecidableEq, Repr

/-- The detach key actually used: `if detachKey == 0 { detachKey = DefaultDetachKey }`
(pty.go lines 58-61). -/
def effDetachKey (o : SessionOptions) : Nat :=
  if o.detachKey = 0 then DefaultDetachKey else o.detachKey

/-- The interrupt delay actually used (pty.go lines 63-66). -/
def effInterruptDelay (o : SessionOptions) : Int :=
  if o.interruptDelay = 0 then DefaultInterruptDelay else o.interruptDelay

/-- The interrupt timeout actually used (pty.go lines 68-71). -/
def effInterruptTimeout (o : SessionOptions) : Int :=
  if o.interruptTimeout = 0 then DefaultInterruptTimeout else o.interruptTimeout

/-! #### Input relay

The input relay goroutine (pty.go lines 120-142) repeatedly calls
`cr.Read(buf)` and walks the returned chunk byte by byte: a byte equal to the
detach key makes it post `ErrDetached` and stop; any other byte is written to
the PTY (writes to an open PTY are modelled as succeeding); when `Read`
returns an error after the chunks are exhausted, that error is posted. The
input stream is modelled as the list of chunks successive `Read` calls return,
followed by a final read error (`io.EOF`, `ErrCanceled`, ...). -/

/-- Result of the input relay: the bytes written to the PTY in order, the bytes
consumed from the input stream, and the error posted on the `inputErr` channel. -/
structure RelayResult where
  written : List Nat
  consumed : List Nat
  result : GoError
deriving DecidableEq, Repr

/-- The inner `for i := 0; i < n; i++` loop over one read chunk: returns the
bytes forwarded from this chunk, and `some ErrDetached` when the detach key was
hit inside the chunk (stopping the relay). -/
def relayChunk (key : Nat) : List Nat → List Nat × Option GoError
  | [] => ([], none)
  | b :: rest =>
    if b = key then ([], some .errDetached)
    else
      let r := relayChunk key rest
      (b :: r.1, r.2)

/-- The outer read loop of the input relay over the stream's chunks, ending
with the stream's final read error. A chunk is consumed in full by the `Read`
that returned it, even when the detach key stops the relay inside it. -/
def inputRelay (key : Nat) : List (List Nat) → GoError → RelayResult
  | [], eosErr => ⟨[], [], eosErr⟩
  | c :: cs, eosErr =>
    match relayChunk key c with
    | (w, some e) => ⟨w, c, e⟩
    | (w, none) =>
      let r := inputRelay key cs eosErr
      ⟨w ++ r.written, c ++ r.consumed, r.result⟩

/-- Byte-granular delivery: each `Read` returns exactly one byte, as when the
input is an interactive terminal in raw mode. -/
def byteChunks (bs : List Nat) : List (List Nat) := bs.map (fun b => [b])

/-! #### Main loop, detach protocol and terminal mode -/

/-- Exit paths of `RunWithPTY`. -/
inductive ExitPath where
  | nilCommand
  | ptyStartFail
  | newReaderFail
  | childExit
  | detached
  | inputError
deriving DecidableEq, Repr

/-- One firing of a channel in the select loop (pty.go lines 144-160): either
`waitErr` delivers the child's `Wait` result (`none` = clean exit), or
`inputErr` delivers the input relay's error. -/
inductive MainEvent where
  | waitDone (err : Option GoError)
  | inputEv (e : GoError)
deriving DecidableEq, Repr

/-- Observable outcome of one `RunWithPTY` run. `awaitedOutput` records whether
`<-outputDone` was executed (the output relay was seen to hit end-of-stream)
before returning; `kills` counts `cmd.Process.Kill()` invocations; `interrupts`
counts `sendInterrupt` invocations; `finalMode` is the terminal mode after
return and `rawEntered` whether raw mode was entered on the input terminal. -/
structure RunResult where
  retVal : Option GoError
  path : ExitPath
  awaitedOutput : Bool
  kills : Nat
  interrupts : Nat
  finalMode : Nat
  rawEntered : Bool
deriving DecidableEq, Repr

/-- `makeRawIfPossible` (pty.go lines 200-215): if the reader is not
Fd-backed, return no restore function and no error; if `term.MakeRaw` fails,
the mode is unchanged and the error is returned; otherwise the terminal is now
in raw mode and the restore function captures the prior state.
Result: (terminal mode now, restore target when a restore fn was returned,
whether an error occurred). -/
def makeRawIfPossible (hasFd rawFails : Bool) (modeNow rawVal : Nat) :
    Nat × Option Nat × Bool :=
  if !hasFd then (modeNow, none, false)
  else if rawFails then (modeNow, none, true)
  else (rawVal, some modeNow, false)

/-- Outcome of the select loop (or of a setup failure inside it): the returned
error, the exit path taken, whether `<-outputDone` was executed before
returning, and how many `Kill` / `sendInterrupt` calls were made. -/
structure LoopOut where
  retVal : Option GoError
  path : ExitPath
  awaitedOutput : Bool
  kills : Nat
  interrupts : Nat
deriving DecidableEq, Repr

/-- `detach` (pty.go lines 163-178) together with `sendInterrupts`
(lines 180-198), for a started child (`cmd.Process` non-nil):
two interrupts are sent; then either `waitErr` fires within the timeout
(child exited in the grace window) or the timeout fires first, in which case
the child is killed once and awaited. Both sub-cases then await `outputDone`
and return `ErrDetached`. -/
def detachRun (exitsInGrace : Bool) : LoopOut :=
  if exitsInGrace then ⟨some .errDetached, .detached, true, 0, 2⟩
  else ⟨some .errDetached, .detached, true, 1, 2⟩

/-- The `for { select { ... } }` loop (pty.go lines 144-160), driven by the
sequence of channel events. `waitDone`: await `outputDone`, then return the
wait error. `inputEv ErrDetached`: run the detach protocol. `inputEv
ErrCanceled`: continue looping. Any other input error: return it at once,
without awaiting `outputDone`. `none` means the loop is still blocked. -/
def mainLoop (exitsInGrace : Bool) : List MainEvent → Option LoopOut
  | [] => none
  | .waitDone e :: _ => some ⟨e, .childExit, true, 0, 0⟩
  | .inputEv .errDetached :: _ => some (detachRun exitsInGrace)
  | .inputEv .errCanceled :: rest => mainLoop exitsInGrace rest
  | .inputEv (.other c) :: _ => some ⟨some (.other c), .inputError, false, 0, 0⟩

/-- Environment of one `RunWithPTY` invocation: which fallible setup steps
fail, whether stdin is Fd-backed, the abstract value of the raw terminal mode,
whether the child exits within the interrupt timeout on detach, and the order
in which the loop's channels fire. -/
structure RunConfig where
  opts : SessionOptions
  cmdIsNil : Bool
  ptyStartFails : Bool
  stdinHasFd : Bool
  makeRawFails : Bool
  rawModeVal : Nat
  newReaderFails : Bool
  exitsInGrace : Bool
  events : List MainEvent
deriving DecidableEq, Repr

/-- Error codes for the wrapped setup errors. -/
def nilCommandErr : GoError := .other 1

/-- `pty.Start` failure, returned as-is (pty.go lines 73-76). -/
def ptyStartErr : GoError := .other 2

/-- `cancelreader.NewReader` failure (pty.go lines 110-117). -/
def newReaderErr : GoError := .other 3

/-- Whether raw mode was entered: `makeRawIfPossible` returned a restore
function (err == nil and restoreFn != nil, pty.go line 85). -/
def rawEnteredOf (cfg : RunConfig) (initMode : Nat) : Bool :=
  (makeRawIfPossible cfg.stdinHasFd cfg.makeRawFails initMode cfg.rawModeVal).2.1.isSome

/-- Terminal mode once `RunWithPTY` has returned through any path reached after
`makeRawIfPossible`: the deferred `restoreFn()` (pty.go line 86) puts back the
saved state when it was registered; otherwise the mode is whatever
`makeRawIfPossible` left. -/
def finalModeOf (cfg : RunConfig) (initMode : Nat) : Nat :=
  match (makeRawIfPossible cfg.stdinHasFd cfg.makeRawFails initMode cfg.rawModeVal).2.1 with
  | some saved => saved
  | none => (makeRawIfPossible cfg.stdinHasFd cfg.makeRawFails initMode cfg.rawModeVal).1

/-- `RunWithPTY` (pty.go lines 42-161) as a function of its environment and the
initial terminal mode. Early exits: nil command, `pty.Start` failure (the
terminal was not touched yet). Then raw mode is entered if possible; the
deferred restore runs on every later return, reflected by `finalModeOf`. If
`cancelreader.NewReader` fails (pty.go lines 110-117) the child is killed
(one `Kill`), awaited, and the error returned without awaiting `outputDone`.
Otherwise the select loop resolves the run.
`none` = the run never resolves (no channel event fired). -/
def runWithPTY (cfg : RunConfig) (initMode : Nat) : Option RunResult :=
  if cfg.cmdIsNil then
    some ⟨some nilCommandErr, .nilCommand, false, 0, 0, initMode, false⟩
  else if cfg.ptyStartFails then
    some ⟨some ptyStartErr, .ptyStartFail, false, 0, 0, initMode, false⟩
  else if cfg.newReaderFails then
    some ⟨some newReaderErr, .newReaderFail, false, 1, 0,
      finalModeOf cfg initMode, rawEnteredOf cfg initMode⟩
  else
    match mainLoop cfg.exitsInGrace cfg.events with
    | none => none
    | some o => some ⟨o.retVal, o.path, o.awaitedOutput, o.kills, o.interrupts,
        finalModeOf cfg initMode, rawEnteredOf cfg initMode⟩

/-! ### Helper lemmas -/

theorem relayChunk_of_not_mem (key : Nat) :
    ∀ c : List Nat, key ∉ c → relayChunk key c = (c, none) := by
  intro c hc
  induction c with
  | nil => rfl
  | cons b rest ih =>
    rw [List.mem_cons, not_or] at hc
    obtain ⟨h1, h2⟩ := hc
    have hbk : ¬ b = key := fun h => h1 h.symm
    simp [relayChunk, hbk, ih h2]

theorem inputRelay_byteChunks_detach (key : Nat) (e : GoError) :
    ∀ pre post : List Nat, key ∉ pre →
      inputRelay key (byteChunks (pre ++ key :: post)) e =
        ⟨pre, pre ++ [key], .errDetached⟩ := by
  intro pre
  induction pre with
  | nil =>
    intro post _
    simp [byteChunks, inputRelay, relayChunk]
  | cons b rest ih =>
    intro post hmem
    rw [List.mem_cons, not_or] at hmem
    obtain ⟨h1, h2⟩ := hmem
    have hbk : ¬ b = key := fun h => h1 h.symm
    simp [byteChunks] at ih ⊢
    simp [inputRelay, relayChunk, hbk, ih post h2]

theorem version_char (n : Nat) : hexDigit (((n &&& 15) ||| 64) / 16) = '4' := by
  have h : n &&& 15 < 16 := Nat.lt_succ_of_le Nat.and_le_right
  generalize n &&& 15 = m at h
  interval_cases m <;> decide

theorem variant_char (n : Nat) :
    hexDigit (((n &&& 63) ||| 128) / 16) ∈ (['8', '9', 'a', 'b'] : List Char) := by
  have h : n &&& 63 < 64 := Nat.lt_succ_of_le Nat.and_le_right
  generalize n &&& 63 = m at h
  interval_cases m <;> decide

theorem finalModeOf_eq (cfg : RunConfig) (m : Nat) : finalModeOf cfg m = m := by
  unfold finalModeOf makeRawIfPossible
  by_cases h3 : cfg.stdinHasFd <;> by_cases h4 : cfg.makeRawFails <;> simp [h3, h4]

theorem mainLoop_awaitedOutput (g : Bool) (evs : List MainEvent) (o : LoopOut)
    (h : mainLoop g evs = some o)
    (hp : o.path = ExitPath.childExit ∨ o.path = ExitPath.detached) :
    o.awaitedOutput = true := by
  induction evs with
  | nil => exact absurd h (by simp [mainLoop])
  | cons ev rest ih =>
    cases ev with
    | waitDone e =>
      rw [mainLoop, Option.some.injEq] at h
      rw [← h]
    | inputEv e =>
      cases e with
      | errDetached =>
        rw [mainLoop, Option.some.injEq] at h
        rw [← h]
        by_cases hg : g <;> simp [detachRun, hg]
      | errCanceled =>
        rw [mainLoop] at h
        exact ih h
      | other c =>
        rw [mainLoop, Option.some.injEq] at h
        rw [← h] at hp
        rcases hp with hp | hp <;> simp at hp

theorem mainLoop_detach (g : Bool) (evs : List MainEvent) (o : LoopOut)
    (h : mainLoop g evs = some o) (hp : o.path = ExitPath.detached) :
    o.retVal = some GoError.errDetached ∧ o.kills = (if g then 0 else 1) := by
  induction evs with
  | nil => exact absurd h (by simp [mainLoop])
  | cons ev rest ih =>
    cases ev with
    | waitDone e =>
      rw [mainLoop, Option.some.injEq] at h
      rw [← h] at hp
      simp at hp
    | inputEv e =>
      cases e with
      | errDetached =>
        rw [mainLoop, Option.some.injEq] at h
        rw [← h]
        by_cases hg : g <;> simp [detachRun, hg]
      | errCanceled =>
        rw [mainLoop] at h
        exact ih h
      | other c =>
        rw [mainLoop, Option.some.injEq] at h
        rw [← h] at hp
        simp at hp

/-! ### Claim theorems -/

/-- C8: for every input byte sequence containing no occurrence of the detach
byte — delivered in any sequence of read chunks whose concatenation is that
sequence — the input relay forwards every byte of the sequence to the PTY in
order, exactly once (and ends with the stream's own final read error). -/
theorem inputRelay_forwards_all_without_detach (key : Nat) (e : GoError)
    (chunks : List (List Nat)) (h : key ∉ chunks.flatten) :
    inputRelay key chunks e = ⟨chunks.flatten, chunks.flatten, e⟩ := by
  induction chunks with
  | nil => rfl
  | cons c cs ih =>
    rw [List.flatten_cons, List.mem_append, not_or] at h
    obtain ⟨hc, hcs⟩ := h
    simp [inputRelay, relayChunk_of_not_mem key c hc, ih hcs, List.flatten_cons]

/-- Witness for C8 on a concrete stream. -/
theorem inputRelay_forwards_all_without_detach_witness :
    (11 : Nat) ∉ ([[1, 2], [3]] : List (List Nat)).flatten ∧
    inputRelay 11 [[1, 2], [3]] (GoError.other 0) =
      ⟨([[1, 2], [3]] : List (List Nat)).flatten, ([[1, 2], [3]] : List (List Nat)).flatten,
        GoError.other 0⟩ :=
  ⟨by decide, inputRelay_forwards_all_without_detach 11 (GoError.other 0) [[1, 2], [3]] (by decide)⟩

/-- C2: for every input byte sequence whose first occurrence of the detach byte
is at position k (the sequence is `pre ++ key :: post` with `k = pre.length`),
delivered byte-per-read as an interactive terminal does, the input relay
forwards exactly the bytes at positions 0..k-1 in order, does not forward the
byte at position k, reads no byte at any position after k from the stream, and
raises the detach signal. -/
theorem inputRelay_detach_at_first_occurrence (key : Nat) (e : GoError)
    (pre post : List Nat) (hpre : key ∉ pre) :
    (inputRelay key (byteChunks (pre ++ key :: post)) e).written =
      (pre ++ key :: post).take pre.length ∧
    (inputRelay key (byteChunks (pre ++ key :: post)) e).consumed =
      (pre ++ key :: post).take (pre.length + 1) ∧
    (inputRelay key (byteChunks (pre ++ key :: post)) e).result = GoError.errDetached := by
  rw [inputRelay_byteChunks_detach key e pre post hpre]
  refine ⟨?_, ?_, rfl⟩
  · rw [List.take_left]
  · rw [List.take_append_eq_append_take]
    have h1 : pre.length + 1 - pre.length = 1 := by omega
    rw [h1, List.take_of_length_le (Nat.le_succ _)]
    rfl

/-- Witness for C2 on a concrete sequence: detach byte 11 first occurs at
position 2 of `[1, 2, 11, 3]`. -/
theorem inputRelay_detach_at_first_occurrence_witness :
    (11 : Nat) ∉ ([1, 2] : List Nat) ∧
    ((inputRelay 11 (byteChunks ([1, 2] ++ 11 :: [3])) (GoError.other 0)).written =
        ([1, 2] ++ 11 :: [3]).take 2 ∧
      (inputRelay 11 (byteChunks ([1, 2] ++ 11 :: [3])) (GoError.other 0)).consumed =
        ([1, 2] ++ 11 :: [3]).take 3 ∧
      (inputRelay 11 (byteChunks ([1, 2] ++ 11 :: [3])) (GoError.other 0)).result =
        GoError.errDetached) :=
  ⟨by decide, inputRelay_detach_at_first_occurrence 11 (GoError.other 0) [1, 2] [3] (by decide)⟩

/-- C9: every id built by `newUUID`, for every 16-byte random input, matches
version-4 UUID syntax: 36 characters, hyphens at (1-indexed) positions
9/14/19/24, version nibble `4` at position 15, variant nibble in `{8,9,a,b}`
at position 20. -/
theorem newUUID_version4_syntax
    (b0 b1 b2 b3 b4 b5 b6 b7 b8 b9 b10 b11 b12 b13 b14 b15 : Nat) :
    (newUUID [b0, b1, b2, b3, b4, b5, b6, b7, b8, b9, b10, b11, b12, b13, b14, b15]).length = 36 ∧
    ((newUUIDChars [b0, b1, b2, b3, b4, b5, b6, b7, b8, b9, b10, b11, b12, b13, b14,
        b15]).getD 8 ' ' = '-' ∧
      (newUUIDChars [b0, b1, b2, b3, b4, b5, b6, b7, b8, b9, b10, b11, b12, b13, b14,
        b15]).getD 13 ' ' = '-' ∧
      (newUUIDChars [b0, b1, b2, b3, b4, b5, b6, b7, b8, b9, b10, b11, b12, b13, b14,
        b15]).getD 18 ' ' = '-' ∧
      (newUUIDChars [b0, b1, b2, b3, b4, b5, b6, b7, b8, b9, b10, b11, b12, b13, b14,
        b15]).getD 23 ' ' = '-') ∧
    (newUUIDChars [b0, b1, b2, b3, b4, b5, b6, b7, b8, b9, b10, b11, b12, b13, b14,
      b15]).getD 14 ' ' = '4' ∧
    (newUUIDChars [b0, b1, b2, b3, b4, b5, b6, b7, b8, b9, b10, b11, b12, b13, b14,
      b15]).getD 19 ' ' ∈ (['8', '9', 'a', 'b'] : List Char) := by
  refine ⟨rfl, ⟨rfl, rfl, rfl, rfl⟩, ?_, ?_⟩
  · exact version_char b6
  · exact variant_char b8

/-- C6: if the persistence write fails inside `GetOrCreate` for a key that had
no entry, a subsequent `Get` for that key reports not-found, and the error is
surfaced. -/
theorem getOrCreate_save_fail_get_not_found (s : Store) (k id : String)
    (h : s.sessions k = none) :
    (s.getOrCreate k (some id) false).1.get k = none ∧
    (s.getOrCreate k (some id) false).2.2.2 = some StoreError.writeFail := by
  simp [Store.getOrCreate, h, Store.saveLocked, Store.get, update]

/-- Witness for C6 on the empty store. -/
theorem getOrCreate_save_fail_get_not_found_witness :
    emptyStore.sessions "a" = none ∧
    ((emptyStore.getOrCreate "a" (some "u1") false).1.get "a" = none ∧
      (emptyStore.getOrCreate "a" (some "u1") false).2.2.2 = some StoreError.writeFail) :=
  ⟨rfl, getOrCreate_save_fail_get_not_found emptyStore "a" "u1" rfl⟩

/-- C7: `GetOrCreate` is idempotent per key: with the key absent, the first
(successful) call returns the freshly generated id with created = true and does
exactly one persisted write; a second call with the same key returns the same
id with created = false and leaves the store (and its write count) unchanged. -/
theorem getOrCreate_idempotent (s : Store) (k id1 id2 : String)
    (h : s.sessions k = none) :
    (s.getOrCreate k (some id1) true).2.1 = id1 ∧
    (s.getOrCreate k (some id1) true).2.2.1 = true ∧
    (s.getOrCreate k (some id1) true).1.writes = s.writes + 1 ∧
    ((s.getOrCreate k (some id1) true).1.getOrCreate k (some id2) true).2.1 = id1 ∧
    ((s.getOrCreate k (some id1) true).1.getOrCreate k (some id2) true).2.2.1 = false ∧
    ((s.getOrCreate k (some id1) true).1.getOrCreate k (some id2) true).1 =
      (s.getOrCreate k (some id1) true).1 := by
  simp [Store.getOrCreate, h, Store.saveLocked, update]

/-- Witness for C7 on the empty store. -/
theorem getOrCreate_idempotent_witness :
    emptyStore.sessions "a" = none ∧
    ((emptyStore.getOrCreate "a" (some "u1") true).2.1 = "u1" ∧
      (emptyStore.getOrCreate "a" (some "u1") true).2.2.1 = true ∧
      (emptyStore.getOrCreate "a" (some "u1") true).1.writes = emptyStore.writes + 1 ∧
      ((emptyStore.getOrCreate "a" (some "u1") true).1.getOrCreate "a" (some "u2") true).2.1 =
        "u1" ∧
      ((emptyStore.getOrCreate "a" (some "u1") true).1.getOrCreate "a" (some "u2") true).2.2.1 =
        false ∧
      ((emptyStore.getOrCreate "a" (some "u1") true).1.getOrCreate "a" (some "u2") true).1 =
        (emptyStore.getOrCreate "a" (some "u1") true).1) :=
  ⟨rfl, getOrCreate_idempotent emptyStore "a" "u1" "u2" rfl⟩

/-- C3 counterexample: `Set` is not all-or-nothing. On the empty store, a `Set`
whose persistence write fails leaves the new value in memory (the mapping for
the key is not its value before the call) while the disk still lacks it, so
memory and disk diverge for that key. -/
theorem set_save_fail_divergence_cex :
    ((emptyStore.set "a" "x" false).1.sessions "a" = some "x") ∧
    emptyStore.sessions "a" = none ∧
    ((emptyStore.set "a" "x" false).1.disk "a" = none) ∧
    ((emptyStore.set "a" "x" false).2 = some StoreError.writeFail) :=
  ⟨rfl, rfl, rfl, rfl⟩

/-- C3 amended: only `GetOrCreate` is all-or-nothing for the affected key. On a
failed persistence write, `GetOrCreate` leaves the in-memory mapping for the
key at its prior value, while `Set` keeps the new value in memory and `Delete`
keeps the deletion in memory, both leaving the disk unchanged (so memory and
disk diverge for that key). -/
theorem store_mutator_rollback_amended (s : Store) (k v id w : String) :
    ((s.getOrCreate k (some id) false).1.sessions k = s.sessions k) ∧
    ((s.set k v false).1.sessions k = some v) ∧
    ((s.set k v false).1.disk = s.disk) ∧
    (s.sessions k = some w →
      (s.delete k false).1.sessions k = none ∧ (s.delete k false).1.disk = s.disk) := by
  refine ⟨?_, ?_, ?_, ?_⟩
  · cases hsk : s.sessions k with
    | none => simp [Store.getOrCreate, hsk, Store.saveLocked, update]
    | some x => simp [Store.getOrCreate, hsk]
  · simp [Store.set, Store.saveLocked, update]
  · simp [Store.set, Store.saveLocked]
  · intro hk
    simp [Store.delete, hk, Store.saveLocked, update]

/-- Witness for the amended C3 on a one-entry store. -/
theorem store_mutator_rollback_amended_witness :
    ((⟨update (fun _ => none) "a" (some "w"), fun _ => none, 0⟩ : Store).sessions "a" =
      some "w") ∧
    (((⟨update (fun _ => none) "a" (some "w"), fun _ => none, 0⟩ : Store).getOrCreate "a"
        (some "id0") false).1.sessions "a" =
      (⟨update (fun _ => none) "a" (some "w"), fun _ => none, 0⟩ : Store).sessions "a") ∧
    (((⟨update (fun _ => none) "a" (some "w"), fun _ => none, 0⟩ : Store).set "a" "x"
        false).1.sessions "a" = some "x") ∧
    (((⟨update (fun _ => none) "a" (some "w"), fun _ => none, 0⟩ : Store).delete "a"
        false).1.sessions "a" = none) := by
  obtain ⟨h1, h2, h3, h4⟩ :=
    store_mutator_rollback_amended
      (⟨update (fun _ => none) "a" (some "w"), fun _ => none, 0⟩ : Store) "a" "x" "id0" "w"
  exact ⟨rfl, h1, h2, (h4 rfl).1⟩

/-- C10: `RunWithPTY` replaces every zero-valued option with its default:
detach key 0x00 becomes 0x0b, interrupt delay 0 becomes 50ms, interrupt
timeout 0 becomes 3s; consequently the effective detach key is never the NUL
byte and the effective delay and timeout are never zero. -/
theorem runWithPTY_option_defaults (o : SessionOptions) :
    (o.detachKey = 0 → effDetachKey o = 0x0b) ∧
    (o.interruptDelay = 0 → effInterruptDelay o = 50000000) ∧
    (o.interruptTimeout = 0 → effInterruptTimeout o = 3000000000) ∧
    effDetachKey o ≠ 0 ∧ effInterruptDelay o ≠ 0 ∧ effInterruptTimeout o ≠ 0 := by
  refine ⟨fun h => ?_, fun h => ?_, fun h => ?_, ?_, ?_, ?_⟩
  · simp [effDetachKey, h, DefaultDetachKey]
  · simp [effInterruptDelay, h, DefaultInterruptDelay]
  · simp [effInterruptTimeout, h, DefaultInterruptTimeout]
  · by_cases h : o.detachKey = 0 <;> simp [effDetachKey, h, DefaultDetachKey]
  · by_cases h : o.interruptDelay = 0 <;> simp [effInterruptDelay, h, DefaultInterruptDelay]
  · by_cases h : o.interruptTimeout = 0 <;>
      simp [effInterruptTimeout, h, DefaultInterruptTimeout]

/-- Witness for C10 at the all-zero options. -/
theorem runWithPTY_option_defaults_witness :
    effDetachKey ⟨0, 0, 0⟩ = 0x0b ∧ effInterruptDelay ⟨0, 0, 0⟩ = 50000000 ∧
    effInterruptTimeout ⟨0, 0, 0⟩ = 3000000000 ∧ effDetachKey ⟨0, 0, 0⟩ ≠ 0 ∧
    effInterruptDelay ⟨0, 0, 0⟩ ≠ 0 ∧ effInterruptTimeout ⟨0, 0, 0⟩ ≠ 0 :=
  ⟨(runWithPTY_option_defaults ⟨0, 0, 0⟩).1 rfl,
    (runWithPTY_option_defaults ⟨0, 0, 0⟩).2.1 rfl,
    (runWithPTY_option_defaults ⟨0, 0, 0⟩).2.2.1 rfl,
    (runWithPTY_option_defaults ⟨0, 0, 0⟩).2.2.2.1,
    (runWithPTY_option_defaults ⟨0, 0, 0⟩).2.2.2.2.1,
    (runWithPTY_option_defaults ⟨0, 0, 0⟩).2.2.2.2.2⟩

/-- C5: on every resolving run, whenever raw mode was entered on the input
terminal, the terminal mode after `RunWithPTY` returns equals its mode before
the call (the deferred restore puts back the saved prior state). -/
theorem runWithPTY_restores_terminal_mode (cfg : RunConfig) (m : Nat) (r : RunResult)
    (h : runWithPTY cfg m = some r) (hraw : r.rawEntered = true) :
    r.finalMode = m := by
  unfold runWithPTY at h
  split at h
  · rw [Option.some.injEq] at h
    rw [← h]
  · split at h
    · rw [Option.some.injEq] at h
      rw [← h]
    · split at h
      · rw [Option.some.injEq] at h
        rw [← h]
        exact finalModeOf_eq cfg m
      · split at h
        · exact absurd h (by simp)
        · rw [Option.some.injEq] at h
          rw [← h]
          exact finalModeOf_eq cfg m

/-- Witness for C5: a raw-mode run beginning in mode 7 ends back in mode 7. -/
theorem runWithPTY_restores_terminal_mode_witness :
    runWithPTY ⟨⟨0, 0, 0⟩, false, false, true, false, 99, false, true,
        [MainEvent.waitDone none]⟩ 7 =
      some ⟨none, ExitPath.childExit, true, 0, 0, 7, true⟩ ∧
    (RunResult.mk none ExitPath.childExit true 0 0 7 true).rawEntered = true ∧
    (RunResult.mk none ExitPath.childExit true 0 0 7 true).finalMode = 7 :=
  ⟨rfl, rfl,
    runWithPTY_restores_terminal_mode
      ⟨⟨0, 0, 0⟩, false, false, true, false, 99, false, true, [MainEvent.waitDone none]⟩ 7
      ⟨none, ExitPath.childExit, true, 0, 0, 7, true⟩ rfl rfl⟩

/-- C1 counterexample: `RunWithPTY` can return before the output relay has
observed end-of-stream. On the input-relay-error exit path (a non-benign input
error) and on the setup-failure path after the output relay has started
(cancel-reader construction failure), the run returns with `awaitedOutput`
still false. -/
theorem runWithPTY_returns_without_output_wait_cex :
    (runWithPTY ⟨⟨0, 0, 0⟩, false, false, false, false, 0, false, true,
        [MainEvent.inputEv (GoError.other 7)]⟩ 0).map
      (fun r => (r.path, r.awaitedOutput)) = some (ExitPath.inputError, false) ∧
    (runWithPTY ⟨⟨0, 0, 0⟩, false, false, false, false, 0, true, true, []⟩ 0).map
      (fun r => (r.path, r.awaitedOutput)) = some (ExitPath.newReaderFail, false) :=
  ⟨rfl, rfl⟩

/-- C1 amended: on the normal child-exit path and on both detach sub-paths,
`RunWithPTY` does not return before the output relay has observed
end-of-stream; the input-relay-error path and the post-start setup-failure
path return without waiting. -/
theorem runWithPTY_awaits_output_on_exit_and_detach (cfg : RunConfig) (m : Nat)
    (r : RunResult) (h : runWithPTY cfg m = some r)
    (hp : r.path = ExitPath.childExit ∨ r.path = ExitPath.detached) :
    r.awaitedOutput = true := by
  unfold runWithPTY at h
  split at h
  · rw [Option.some.injEq] at h
    rw [← h] at hp
    rcases hp with hp | hp <;> simp at hp
  · split at h
    · rw [Option.some.injEq] at h
      rw [← h] at hp
      rcases hp with hp | hp <;> simp at hp
    · split at h
      · rw [Option.some.injEq] at h
        rw [← h] at hp
        rcases hp with hp | hp <;> simp at hp
      · split at h
        · exact absurd h (by simp)
        · rename_i o heq
          rw [Option.some.injEq] at h
          rw [← h] at hp ⊢
          exact mainLoop_awaitedOutput cfg.exitsInGrace cfg.events o heq hp

/-- Witness for the amended C1: a normal child-exit run has awaited the output
relay. -/
theorem runWithPTY_awaits_output_witness :
    runWithPTY ⟨⟨0, 0, 0⟩, false, false, false, false, 0, false, true,
        [MainEvent.waitDone none]⟩ 0 =
      some ⟨none, ExitPath.childExit, true, 0, 0, 0, false⟩ ∧
    ((RunResult.mk none ExitPath.childExit true 0 0 0 false).path = ExitPath.childExit ∨
      (RunResult.mk none ExitPath.childExit true 0 0 0 false).path = ExitPath.detached) ∧
    (RunResult.mk none ExitPath.childExit true 0 0 0 false).awaitedOutput = true :=
  ⟨rfl, Or.inl rfl,
    runWithPTY_awaits_output_on_exit_and_detach
      ⟨⟨0, 0, 0⟩, false, false, false, false, 0, false, true, [MainEvent.waitDone none]⟩ 0
      ⟨none, ExitPath.childExit, true, 0, 0, 0, false⟩ rfl (Or.inl rfl)⟩

/-- C4: every detach-path run returns the detach sentinel, and the forced-kill
primitive is never invoked when the child exits within the grace window and is
invoked exactly once when the timeout elapses first. -/
theorem runWithPTY_detach_outcome (cfg : RunConfig) (m : Nat) (r : RunResult)
    (h : runWithPTY cfg m = some r) (hp : r.path = ExitPath.detached) :
    r.retVal = some GoError.errDetached ∧ r.kills = (if cfg.exitsInGrace then 0 else 1) := by
  unfold runWithPTY at h
  split at h
  · rw [Option.some.injEq] at h
    rw [← h] at hp
    simp at hp
  · split at h
    · rw [Option.some.injEq] at h
      rw [← h] at hp
      simp at hp
    · split at h
      · rw [Option.some.injEq] at h
        rw [← h] at hp
        simp at hp
      · split at h
        · exact absurd h (by simp)
        · rename_i o heq
          rw [Option.some.injEq] at h
          rw [← h] at hp ⊢
          exact mainLoop_detach cfg.exitsInGrace cfg.events o heq hp

/-- Witness for C4: a detach where the child misses the grace window returns
the sentinel with exactly one kill. -/
theorem runWithPTY_detach_outcome_witness :
    runWithPTY ⟨⟨0, 0, 0⟩, false, false, false, false, 0, false, false,
        [MainEvent.inputEv GoError.errDetached]⟩ 0 =
      some ⟨some GoError.errDetached, ExitPath.detached, true, 1, 2, 0, false⟩ ∧
    (RunResult.mk (some GoError.errDetached) ExitPath.detached true 1 2 0 false).path =
      ExitPath.detached ∧
    ((RunResult.mk (some GoError.errDetached) ExitPath.detached true 1 2 0 false).retVal =
        some GoError.errDetached ∧
      (RunResult.mk (some GoError.errDetached) ExitPath.detached true 1 2 0 false).kills = 1) :=
  ⟨rfl, rfl,
    runWithPTY_detach_outcome
      ⟨⟨0, 0, 0⟩, false, false, false, false, 0, false, false,
        [MainEvent.inputEv GoError.errDetached]⟩ 0
      ⟨some GoError.errDetached, ExitPath.detached, true, 1, 2, 0, false⟩ rfl rfl⟩

end KioskCLI
